import Mathlib

/-!
# Verification of the sol-year seasonal phase cycle and solar ephemeris

This file is a shallow embedding of `src/backend/app.py` into Lean 4.

Calendar dates are modelled by the proleptic Gregorian calendar, exactly as
Python's `datetime.date`: a date is a `(year, month, day)` triple, and
`toOrdinal` is the same rata-die day count as `date.toordinal()` (ordinal 1 is
0001-01-01).  Python's `timedelta` arithmetic on dates and `date` comparisons
are day-count arithmetic and day-count comparisons, so a phase's `start`/`end`
dates are carried directly as ordinals (`Int`).  Year arithmetic is unbounded
(the Python library would stop at years 1..9999; the algorithms themselves are
calendar arithmetic and are embedded over all integers).

The floating-point solar formulas are modelled over `ℝ` with exact real
arithmetic; the timezone offset, which the Python code samples from the
`zoneinfo` database at local noon, is an external input and is passed as an
explicit real parameter.
-/

namespace SolYear

/-! ## Calendar model (Python `datetime.date`) -/

/-- Gregorian leap-year test, as in Python's `datetime` module
(`year % 4 == 0 and (year % 100 != 0 or year % 400 == 0)`). -/
def isLeap (y : Int) : Bool :=
  y % 4 == 0 && (y % 100 != 0 || y % 400 == 0)

/-- The leap-day contribution of year `y` (1 in a leap year, else 0). -/
def leapI (y : Int) : Int := if isLeap y then 1 else 0

/-- Number of days strictly before January 1 of year `y`, counted from the
rata-die epoch; identical to Python's `_days_before_year`
(`(y-1)*365 + (y-1)//4 - (y-1)//100 + (y-1)//400`; `/` on `Int` is Euclidean
division, which agrees with Python's floor division for positive divisors). -/
def daysBeforeYear (y : Int) : Int :=
  365 * (y - 1) + (y - 1) / 4 - (y - 1) / 100 + (y - 1) / 400

/-- Length of month `m` of year `y`, as in Python's `_days_in_month`. -/
def daysInMonth (y m : Int) : Int :=
  if m = 2 then (if isLeap y then 29 else 28)
  else if m = 4 ∨ m = 6 ∨ m = 9 ∨ m = 11 then 30
  else 31

/-- Number of days of year `y` strictly before month `m`, as in Python's
`_days_before_month` (cumulative month lengths plus the leap day for `m > 2`). -/
def daysBeforeMonth (y m : Int) : Int :=
  (if m ≤ 1 then 0 else if m = 2 then 31 else if m = 3 then 59
   else if m = 4 then 90 else if m = 5 then 120 else if m = 6 then 151
   else if m = 7 then 181 else if m = 8 then 212 else if m = 9 then 243
   else if m = 10 then 273 else if m = 11 then 304 else 334)
  + (if 3 ≤ m ∧ isLeap y then 1 else 0)

/-- A calendar date, as Python's `datetime.date` triple. -/
structure PyDate where
  year : Int
  month : Int
  day : Int
deriving DecidableEq, Repr

/-- Validity of a `(year, month, day)` triple, as checked by the
`datetime.date` constructor (years unbounded, see the file header). -/
def PyDate.valid (d : PyDate) : Prop :=
  1 ≤ d.month ∧ d.month ≤ 12 ∧ 1 ≤ d.day ∧ d.day ≤ daysInMonth d.year d.month

instance (d : PyDate) : Decidable d.valid :=
  inferInstanceAs (Decidable (1 ≤ d.month ∧ d.month ≤ 12 ∧ 1 ≤ d.day ∧
    d.day ≤ daysInMonth d.year d.month))

/-- Python's `date.toordinal()`: the rata-die day number of a date. -/
def toOrdinal (d : PyDate) : Int :=
  daysBeforeYear d.year + daysBeforeMonth d.year d.month + d.day

/-- Python's `timetuple().tm_yday`: 1-based day of year. -/
def day_of_year (d : PyDate) : Int :=
  toOrdinal d - daysBeforeYear d.year

/-! ## Solstice Locator (`winter_solstice`, `summer_solstice`,
`last_next_solstice`, `solstice_name`) -/

/-- `winter_solstice(y) = date(y, 12, 21)`, as its ordinal day number. -/
def winter_solstice (y : Int) : Int := toOrdinal ⟨y, 12, 21⟩

/-- `summer_solstice(y) = date(y, 6, 21)`, as its ordinal day number. -/
def summer_solstice (y : Int) : Int := toOrdinal ⟨y, 6, 21⟩

/-- The six candidate solstice dates built by `last_next_solstice` for a
given `today`, in source order. -/
def solstice_candidates (today : PyDate) : List PyDate :=
  [⟨today.year - 1, 6, 21⟩, ⟨today.year - 1, 12, 21⟩,
   ⟨today.year, 6, 21⟩, ⟨today.year, 12, 21⟩,
   ⟨today.year + 1, 6, 21⟩, ⟨today.year + 1, 12, 21⟩]

/-- Python's `max` over a list of dates (first maximal element; dates compare
by their ordinals).  `none` models the `ValueError` raised on an empty
sequence. -/
def max_by_ord : List PyDate → Option PyDate
  | [] => none
  | d :: rest =>
    match max_by_ord rest with
    | none => some d
    | some m => if toOrdinal m ≤ toOrdinal d then some d else some m

/-- Python's `min` over a list of dates (first minimal element). -/
def min_by_ord : List PyDate → Option PyDate
  | [] => none
  | d :: rest =>
    match min_by_ord rest with
    | none => some d
    | some m => if toOrdinal d ≤ toOrdinal m then some d else some m

/-- `last_next_solstice(today)`: the latest candidate solstice `≤ today` and
the earliest candidate `> today`.  `none` models the `ValueError` raised by
`max`/`min` on an empty generator. -/
def last_next_solstice (today : PyDate) : Option (PyDate × PyDate) :=
  let sols := solstice_candidates today
  match max_by_ord (sols.filter fun s => decide (toOrdinal s ≤ toOrdinal today)),
        min_by_ord (sols.filter fun s => decide (toOrdinal today < toOrdinal s)) with
  | some last_sol, some next_sol => some (last_sol, next_sol)
  | _, _ => none

/-- `solstice_name(d)`: `"Summer"` if the month is June else `"Winter"`. -/
def solstice_name (d : PyDate) : String :=
  if d.month = 6 then "Summer" else "Winter"

/-! ## Phase model and cycle builder -/

/-- Constants from the CONFIG block of `app.py`. -/
def LATITUDE : ℝ := 45.81

def LONGITUDE : ℝ := 15.98

def WEEK : Int := 7

def FIXED_DAYS : Int := 6 * WEEK

def HARD_DAYS : Int := 6 * WEEK

def HARD_WEEK_NAMES : List String :=
  ["Pre-Low Week", "Pre-Mid Week", "Pre-Peak Week",
   "Post-Peak Week", "Post-Mid Week", "Post-Low Week"]

/-- The phase dictionary appended by `add` in `build_cycle`; `start`/`end`
are inclusive dates carried as ordinals. -/
structure Phase where
  name : String
  season : String
  kind : String
  start : Int
  «end» : Int
  pos : Option String
  «variable» : Bool
deriving DecidableEq, Repr

/-- The `add` helper of `build_cycle`: appends the phase, unless it is
degenerate (`start > end`), in which case it returns the list unchanged. -/
def add (name season kind : String) (start «end» : Int) (pos : Option String)
    («variable» : Bool) (phases : List Phase) : List Phase :=
  if start > «end» then phases
  else phases ++ [⟨name, season, kind, start, «end», pos, «variable»⟩]

/-- `build_cycle`, with the `FIXED_DAYS`/`HARD_DAYS` globals made explicit
parameters so that pathological constant choices can be quantified over. -/
def build_cycle_with (fixed_days hard_days : Int) (winter_year : Int) : List Phase :=
  let ws := winter_solstice winter_year
  let ss := summer_solstice (winter_year + 1)
  let ws_next := winter_solstice (winter_year + 1)
  let winter_hard_start := ws - 21
  let winter_hard_end := winter_hard_start + (hard_days - 1)
  let summer_hard_start := ss - 21
  let summer_hard_end := summer_hard_start + (hard_days - 1)
  let next_winter_hard_start := ws_next - 21
  let phases0 := add ("Winter Hard") ("Winter") ("hard")
    winter_hard_start winter_hard_end none false []
  let p1 := winter_hard_end + 1
  let phases1 := add ("Winter Transit 1") ("Winter") ("transit")
    p1 (p1 + (fixed_days - 1)) (some ("after")) false phases0
  let p2 := p1 + fixed_days
  let phases2 := add ("Winter Transit 2") ("Winter") ("transit")
    p2 (p2 + (fixed_days - 1)) (some ("after")) false phases1
  let p3 := p2 + fixed_days
  let phases3 := add ("Summer Transit 1") ("Summer") ("transit")
    p3 (p3 + (fixed_days - 1)) none false phases2
  let p4 := p3 + fixed_days
  let phases4 := add ("Summer Transit 2") ("Summer") ("transit")
    p4 (summer_hard_start - 1) none true phases3
  let phases5 := add ("Summer Hard") ("Summer") ("hard")
    summer_hard_start summer_hard_end none false phases4
  let p5 := summer_hard_end + 1
  let phases6 := add ("Summer Transit 1") ("Summer") ("transit")
    p5 (p5 + (fixed_days - 1)) none false phases5
  let p6 := p5 + fixed_days
  let phases7 := add ("Summer Transit 2") ("Summer") ("transit")
    p6 (p6 + (fixed_days - 1)) none false phases6
  let p7 := p6 + fixed_days
  let phases8 := add ("Winter Transit 1") ("Winter") ("transit")
    p7 (p7 + (fixed_days - 1)) (some ("before")) false phases7
  let p8 := p7 + fixed_days
  let phases9 := add ("Winter Transit 2") ("Winter") ("transit")
    p8 (next_winter_hard_start - 1) (some ("before")) true phases8
  phases9

/-- `build_cycle(winter_year)` with the configured constants. -/
def build_cycle (winter_year : Int) : List Phase :=
  build_cycle_with FIXED_DAYS HARD_DAYS winter_year

/-- The phases scanned by `find_phase` for a date with year `y`: the three
candidate cycles for winter years `y-1`, `y`, `y+1`, in scan order. -/
def cycles3 (y : Int) : List Phase :=
  build_cycle (y - 1) ++ build_cycle y ++ build_cycle (y + 1)

/-- `find_phase(today)`: the first scanned phase whose inclusive interval
contains `today`; `none` models the `RuntimeError` branch. -/
def find_phase (today : PyDate) : Option Phase :=
  (cycles3 today.year).find? fun ph =>
    decide (ph.start ≤ toOrdinal today ∧ toOrdinal today ≤ ph.«end»)

/-- The `/data` handler's hard-phase week lookup `HARD_WEEK_NAMES[week_idx]`,
with Python's list-indexing semantics (negative indices address from the end,
out-of-range indices raise, modelled as `none`). -/
def py_index (l : List String) (i : Int) : Option String :=
  if 0 ≤ i then l.get? i.toNat
  else if 0 ≤ (l.length : Int) + i then l.get? ((l.length : Int) + i).toNat
  else none

/-- The `/data` handler's `week_idx = day_index // WEEK`. -/
def week_idx (day_index : Int) : Int := day_index / WEEK

/-- The step relation of a gapless cycle: each phase starts the day after the
previous one ends. -/
def gapless (a b : Phase) : Prop := b.start = a.«end» + 1

/-! ## Solar ephemeris (modelled over ℝ) -/

/-- Python's `math.radians`. -/
noncomputable def radians (x : ℝ) : ℝ := x * Real.pi / 180

/-- Display-model solar declination (degrees):
`23.44 * sin(radians((360/365) * (doy - 81)))`. -/
noncomputable def solar_declination (doy : Int) : ℝ :=
  23.44 * Real.sin (radians ((360 / 365) * ((doy : ℝ) - 81)))

open scoped Classical in
/-- Python's banker's rounding (`round` to nearest, ties to even). -/
noncomputable def round_half_even (x : ℝ) : ℤ :=
  if Int.fract x < 1 / 2 then ⌊x⌋
  else if 1 / 2 < Int.fract x then ⌊x⌋ + 1
  else if Even ⌊x⌋ then ⌊x⌋ else ⌊x⌋ + 1

/-- Python's `round(x, 1)`. -/
noncomputable def py_round1 (x : ℝ) : ℝ := (round_half_even (10 * x) : ℝ) / 10

/-- `sun_altitude(lat, dec) = round(90 - lat + dec, 1)`. -/
noncomputable def sun_altitude (lat dec : ℝ) : ℝ := py_round1 (90 - lat + dec)

/-- NOAA fractional-year angle `gamma = 2π/365 * (doy - 1)`. -/
noncomputable def frac_year_gamma (doy : Int) : ℝ :=
  2 * Real.pi / 365 * ((doy : ℝ) - 1)

/-- NOAA equation of time (minutes). -/
noncomputable def equation_of_time_minutes (doy : Int) : ℝ :=
  229.18 * (0.000075 + 0.001868 * Real.cos (frac_year_gamma doy)
    - 0.032077 * Real.sin (frac_year_gamma doy)
    - 0.014615 * Real.cos (2 * frac_year_gamma doy)
    - 0.040849 * Real.sin (2 * frac_year_gamma doy))

/-- NOAA solar declination (radians). -/
noncomputable def declination_radians (doy : Int) : ℝ :=
  0.006918 - 0.399912 * Real.cos (frac_year_gamma doy)
    + 0.070257 * Real.sin (frac_year_gamma doy)
    - 0.006758 * Real.cos (2 * frac_year_gamma doy)
    + 0.000907 * Real.sin (2 * frac_year_gamma doy)
    - 0.002697 * Real.cos (3 * frac_year_gamma doy)
    + 0.00148 * Real.sin (3 * frac_year_gamma doy)

/-- The zenith angle used for sunrise and sunset, 90.833 degrees in radians
(includes standard atmospheric refraction). -/
noncomputable def zenith : ℝ := radians 90.833

/-- The pre-clamp cosine of the hour angle computed by
`sunrise_sunset_local`. -/
noncomputable def cos_hour_angle (doy : Int) (lat : ℝ) : ℝ :=
  (Real.cos zenith - Real.sin (radians lat) * Real.sin (declination_radians doy)) /
    (Real.cos (radians lat) * Real.cos (declination_radians doy))

/-- The hour angle in degrees, after clamping the cosine into `[-1, 1]`. -/
noncomputable def ha_deg (doy : Int) (lat : ℝ) : ℝ :=
  Real.arccos (max (-1) (min 1 (cos_hour_angle doy lat))) * 180 / Real.pi

/-- Local-clock solar noon in minutes (longitude east-positive); the timezone
offset, sampled externally from `zoneinfo` at local noon, is a parameter. -/
noncomputable def solar_noon_min (doy : Int) (lon tz_hours : ℝ) : ℝ :=
  720 - 4 * lon - equation_of_time_minutes doy + 60 * tz_hours

/-- `sunrise_sunset_local` as the pair of (sunrise, sunset) local-clock
minute values, before string formatting. -/
noncomputable def sunrise_sunset_local (doy : Int) (lat lon tz_hours : ℝ) : ℝ × ℝ :=
  (solar_noon_min doy lon tz_hours - 4 * ha_deg doy lat,
   solar_noon_min doy lon tz_hours + 4 * ha_deg doy lat)

/-! ## Calendar facts -/

lemma leapI_bounds (y : Int) : 0 ≤ leapI y ∧ leapI y ≤ 1 := by
  unfold leapI; split <;> omega

lemma isLeap_iff (y : Int) :
    isLeap y = true ↔ (y % 4 = 0 ∧ (y % 100 ≠ 0 ∨ y % 400 = 0)) := by
  simp [isLeap]

lemma daysBeforeYear_succ (y : Int) :
    daysBeforeYear (y + 1) = daysBeforeYear y + 365 + leapI y := by
  unfold daysBeforeYear leapI
  by_cases h4 : y % 4 = 0 <;> by_cases h100 : y % 100 = 0 <;>
    by_cases h400 : y % 400 = 0 <;>
      simp [isLeap_iff, h4, h100, h400] <;> omega

lemma daysBeforeMonth_bounds (y m : Int) (h1 : 1 ≤ m) (h2 : m ≤ 12) :
    0 ≤ daysBeforeMonth y m ∧
      daysBeforeMonth y m + daysInMonth y m ≤ 365 + leapI y := by
  interval_cases m <;>
    cases hL : isLeap y <;>
      simp [daysBeforeMonth, daysInMonth, leapI, hL] <;> omega

lemma toOrdinal_bounds (d : PyDate) (hd : d.valid) :
    daysBeforeYear d.year + 1 ≤ toOrdinal d ∧
      toOrdinal d ≤ daysBeforeYear d.year + 365 + leapI d.year := by
  obtain ⟨h1, h2, h3, h4⟩ := hd
  have := daysBeforeMonth_bounds d.year d.month h1 h2
  unfold toOrdinal
  omega

/-! ## Solstice arithmetic -/

lemma summer_solstice_eq (y : Int) :
    summer_solstice y = daysBeforeYear y + 172 + leapI y := by
  simp only [summer_solstice, toOrdinal, daysBeforeMonth, leapI]
  norm_num
  split <;> omega

lemma winter_solstice_eq (y : Int) :
    winter_solstice y = daysBeforeYear y + 355 + leapI y := by
  simp only [winter_solstice, toOrdinal, daysBeforeMonth, leapI]
  norm_num
  split <;> omega

/-- June 21 to December 21 of the same year is always 183 days. -/
lemma winter_sub_summer (y : Int) :
    winter_solstice y - summer_solstice y = 183 := by
  rw [winter_solstice_eq, summer_solstice_eq]; ring

/-- December 21 to the following June 21 is 182 days, plus the leap day of
the following year. -/
lemma summer_next_sub_winter (y : Int) :
    summer_solstice (y + 1) - winter_solstice y = 182 + leapI (y + 1) := by
  rw [summer_solstice_eq, winter_solstice_eq, daysBeforeYear_succ]; ring

lemma summer_next_sub_winter_bounds (y : Int) :
    182 ≤ summer_solstice (y + 1) - winter_solstice y ∧
      summer_solstice (y + 1) - winter_solstice y ≤ 183 := by
  have h := summer_next_sub_winter y
  have hb := leapI_bounds (y + 1)
  omega

/-! ## Normal form of a built cycle (default constants) -/

set_option maxHeartbeats 1000000 in
/-- With the default constants (`FIXED_DAYS = HARD_DAYS = 42`), no phase is
degenerate and `build_cycle` produces exactly these ten phases. -/
lemma build_cycle_eq (w : Int) :
    build_cycle w =
      [⟨"Winter Hard", "Winter", "hard",
         winter_solstice w - 21, winter_solstice w + 20, none, false⟩,
       ⟨"Winter Transit 1", "Winter", "transit",
         winter_solstice w + 21, winter_solstice w + 62, some ("after"), false⟩,
       ⟨"Winter Transit 2", "Winter", "transit",
         winter_solstice w + 63, winter_solstice w + 104, some ("after"), false⟩,
       ⟨"Summer Transit 1", "Summer", "transit",
         winter_solstice w + 105, winter_solstice w + 146, none, false⟩,
       ⟨"Summer Transit 2", "Summer", "transit",
         winter_solstice w + 147, summer_solstice (w + 1) - 22, none, true⟩,
       ⟨"Summer Hard", "Summer", "hard",
         summer_solstice (w + 1) - 21, summer_solstice (w + 1) + 20, none, false⟩,
       ⟨"Summer Transit 1", "Summer", "transit",
         summer_solstice (w + 1) + 21, summer_solstice (w + 1) + 62, none, false⟩,
       ⟨"Summer Transit 2", "Summer", "transit",
         summer_solstice (w + 1) + 63, summer_solstice (w + 1) + 104, none, false⟩,
       ⟨"Winter Transit 1", "Winter", "transit",
         summer_solstice (w + 1) + 105, summer_solstice (w + 1) + 146, some ("before"), false⟩,
       ⟨"Winter Transit 2", "Winter", "transit",
         summer_solstice (w + 1) + 147, winter_solstice (w + 1) - 22, some ("before"), true⟩] := by
  have h1 := summer_next_sub_winter_bounds w
  have h2 := winter_sub_summer (w + 1)
  norm_num [build_cycle, build_cycle_with, add, FIXED_DAYS, HARD_DAYS, WEEK,
    add_lt_iff_neg_left]
  split_ifs <;>
    first
      | (exfalso; omega)
      | (simp only [List.cons_append, List.nil_append, List.cons.injEq,
          Phase.mk.injEq, and_true, true_and, eq_self_iff_true] <;> norm_num <;> omega)

lemma build_cycle_chain (w : Int) : List.Chain' gapless (build_cycle w) := by
  rw [build_cycle_eq]
  simp [List.chain'_cons, gapless]
  omega

lemma build_cycle_start_le_end (w : Int) :
    ∀ ph ∈ build_cycle w, ph.start ≤ ph.«end» := by
  have h1 := summer_next_sub_winter_bounds w
  have h2 := winter_sub_summer (w + 1)
  rw [build_cycle_eq]
  intro ph hph
  simp only [List.mem_cons, List.not_mem_nil, or_false] at hph
  rcases hph with rfl | rfl | rfl | rfl | rfl | rfl | rfl | rfl | rfl | rfl <;>
    simp only [] <;> omega

/-- The 30 phases scanned by `find_phase` form one long gapless chain: each
cycle is internally gapless and the cycle for winter year `y` ends the day
before the cycle for `y + 1` begins. -/
lemma cycles3_chain (y : Int) : List.Chain' gapless (cycles3 y) := by
  unfold cycles3
  rw [build_cycle_eq (y - 1), build_cycle_eq y, build_cycle_eq (y + 1),
    show y - 1 + 1 = y from by ring]
  simp [List.chain'_cons, gapless]
  omega

lemma cycles3_start_le_end (y : Int) :
    ∀ ph ∈ cycles3 y, ph.start ≤ ph.«end» := by
  intro ph hph
  unfold cycles3 at hph
  rcases List.mem_append.mp hph with h | h
  · rcases List.mem_append.mp h with h' | h'
    · exact build_cycle_start_le_end (y - 1) ph h'
    · exact build_cycle_start_le_end y ph h'
  · exact build_cycle_start_le_end (y + 1) ph h

/-- In a gapless chain of non-degenerate phases, every phase after the head
starts strictly after the head ends. -/
lemma gapless_chain_lt (l : List Phase) (a : Phase)
    (hc : List.Chain' gapless (a :: l))
    (hle : ∀ ph ∈ l, ph.start ≤ ph.«end») :
    ∀ x ∈ l, a.«end» < x.start := by
  induction l generalizing a with
  | nil => intro x hx; cases hx
  | cons b rest ih =>
    intro x hx
    have hab : gapless a b := (List.chain'_cons.mp hc).1
    have hrest : List.Chain' gapless (b :: rest) := (List.chain'_cons.mp hc).2
    rcases List.mem_cons.mp hx with rfl | hx'
    · unfold gapless at hab; omega
    · have hb := hle b (by simp)
      have := ih b hrest (fun ph hph => hle ph (by simp [hph])) x hx'
      unfold gapless at hab
      omega

/-- In a gapless chain of non-degenerate phases, at most one phase contains a
given day. -/
lemma gapless_chain_unique (l : List Phase) (t : Int)
    (hc : List.Chain' gapless l) (hle : ∀ ph ∈ l, ph.start ≤ ph.«end») :
    ∀ p ∈ l, ∀ q ∈ l, p.start ≤ t → t ≤ p.«end» → q.start ≤ t → t ≤ q.«end» →
      p = q := by
  induction l with
  | nil => intro p hp; cases hp
  | cons a rest ih =>
    intro p hp q hq hp1 hp2 hq1 hq2
    have hlt := gapless_chain_lt rest a hc (fun ph hph => hle ph (by simp [hph]))
    rcases List.mem_cons.mp hp with rfl | hp' <;>
      rcases List.mem_cons.mp hq with rfl | hq'
    · rfl
    · exact absurd (hlt q hq') (by omega)
    · exact absurd (hlt p hp') (by omega)
    · exact ih (List.chain'_cons'.mp hc).2 (fun ph hph => hle ph (by simp [hph]))
        p hp' q hq' hp1 hp2 hq1 hq2

/-- A gapless chain of non-degenerate phases covers every day from the head's
start through any member's end. -/
lemma gapless_chain_covers (l : List Phase) :
    ∀ (a : Phase) (t : Int), List.Chain' gapless (a :: l) →
      (∀ ph ∈ a :: l, ph.start ≤ ph.«end») → a.start ≤ t →
      (∃ b ∈ a :: l, t ≤ b.«end») →
      ∃ ph ∈ a :: l, ph.start ≤ t ∧ t ≤ ph.«end» := by
  induction l with
  | nil =>
    intro a t _ _ h1 hb
    obtain ⟨b, hbm, hb2⟩ := hb
    have hba := List.mem_singleton.mp hbm
    subst hba
    exact ⟨b, by simp, h1, hb2⟩
  | cons b rest ih =>
    intro a t hc hle h1 hex
    by_cases hta : t ≤ a.«end»
    · exact ⟨a, by simp, h1, hta⟩
    · have hab : gapless a b := (List.chain'_cons.mp hc).1
      have hbs : b.start ≤ t := by unfold gapless at hab; omega
      have hex' : ∃ c ∈ b :: rest, t ≤ c.«end» := by
        obtain ⟨c, hcm, hc2⟩ := hex
        rcases List.mem_cons.mp hcm with rfl | h'
        · exact absurd hc2 hta
        · exact ⟨c, h', hc2⟩
      obtain ⟨ph, hm, hp⟩ := ih b t (List.chain'_cons.mp hc).2
        (fun ph hph => hle ph (List.mem_cons_of_mem a hph)) hbs hex'
      exact ⟨ph, List.mem_cons_of_mem a hm, hp⟩

/-- One built cycle covers exactly the days from 21 days before its winter
solstice through 22 days before the next winter solstice. -/
lemma build_cycle_covers (w t : Int) (h1 : winter_solstice w - 21 ≤ t)
    (h2 : t ≤ winter_solstice (w + 1) - 22) :
    ∃ ph ∈ build_cycle w, ph.start ≤ t ∧ t ≤ ph.«end» := by
  have hc := build_cycle_chain w
  have hle := build_cycle_start_le_end w
  rw [build_cycle_eq] at hc hle ⊢
  apply gapless_chain_covers _ _ t hc hle
  · simp only []; omega
  · refine ⟨⟨"Winter Transit 2", "Winter", "transit",
      summer_solstice (w + 1) + 147, winter_solstice (w + 1) - 22,
      some ("before"), true⟩, by simp, ?_⟩
    simp only []; omega

/-- The three candidate cycles scanned by `find_phase` cover every valid
date of the scanned year. -/
lemma cycles3_covers (d : PyDate) (hd : d.valid) :
    ∃ ph ∈ cycles3 d.year, ph.start ≤ toOrdinal d ∧ toOrdinal d ≤ ph.«end» := by
  obtain ⟨hlo, hhi⟩ := toOrdinal_bounds d hd
  have e1 : daysBeforeYear d.year =
      daysBeforeYear (d.year - 1) + 365 + leapI (d.year - 1) := by
    have h := daysBeforeYear_succ (d.year - 1)
    rw [show d.year - 1 + 1 = d.year from by ring] at h
    exact h
  have e2 := daysBeforeYear_succ d.year
  have w1 := winter_solstice_eq (d.year - 1)
  have w2 := winter_solstice_eq d.year
  have w3 := winter_solstice_eq (d.year + 1)
  have hb1 := leapI_bounds (d.year - 1)
  have hb2 := leapI_bounds d.year
  have hb3 := leapI_bounds (d.year + 1)
  rcases le_or_lt (toOrdinal d) (winter_solstice d.year - 22) with hcase | hcase
  · obtain ⟨ph, hm, hp⟩ := build_cycle_covers (d.year - 1) (toOrdinal d)
      (by omega)
      (by rw [show d.year - 1 + 1 = d.year from by ring]; omega)
    exact ⟨ph, List.mem_append.mpr (Or.inl (List.mem_append.mpr (Or.inl hm))), hp⟩
  · obtain ⟨ph, hm, hp⟩ := build_cycle_covers d.year (toOrdinal d)
      (by omega) (by omega)
    exact ⟨ph, List.mem_append.mpr (Or.inl (List.mem_append.mpr (Or.inr hm))), hp⟩

/-! ## Claim theorems: phase cycle -/

/-- C1: For every calendar date `d`, the phase lookup (`find_phase`, scanning
the cycles built for winter years `d.year - 1`, `d.year`, `d.year + 1` in
order) returns exactly one Phase — it returns `some` phase whose inclusive
`[start, end]` interval contains `d`, no other scanned phase contains `d`,
and the "no phase found" `RuntimeError` branch (modelled by `none`) is
unreachable. -/
theorem find_phase_total_and_unique (d : PyDate) (hd : d.valid) :
    ∃ ph, find_phase d = some ph ∧
      ph.start ≤ toOrdinal d ∧ toOrdinal d ≤ ph.«end» ∧
      ∀ q ∈ cycles3 d.year, q.start ≤ toOrdinal d → toOrdinal d ≤ q.«end» →
        q = ph := by
  obtain ⟨ph0, hm0, hc0⟩ := cycles3_covers d hd
  have hsome : (find_phase d).isSome := by
    unfold find_phase
    exact List.find?_isSome.mpr ⟨ph0, hm0, by simp [hc0.1, hc0.2]⟩
  obtain ⟨ph, hph⟩ := Option.isSome_iff_exists.mp hsome
  have hph' : (cycles3 d.year).find?
      (fun q => decide (q.start ≤ toOrdinal d ∧ toOrdinal d ≤ q.«end»)) = some ph := by
    unfold find_phase at hph; exact hph
  have hcont : ph.start ≤ toOrdinal d ∧ toOrdinal d ≤ ph.«end» := by
    have := List.find?_some hph'
    simpa using this
  have hmem : ph ∈ cycles3 d.year := List.mem_of_find?_eq_some hph'
  refine ⟨ph, hph, hcont.1, hcont.2, ?_⟩
  intro q hq h1 h2
  exact gapless_chain_unique _ _ (cycles3_chain d.year) (cycles3_start_le_end d.year)
    q hq ph hmem h1 h2 hcont.1 hcont.2

/-- Witness for C1 at the concrete date 2025-06-21. -/
theorem find_phase_total_and_unique_witness :
    (PyDate.mk 2025 6 21).valid ∧
      ∃ ph, find_phase ⟨2025, 6, 21⟩ = some ph ∧
        ph.start ≤ toOrdinal ⟨2025, 6, 21⟩ ∧ toOrdinal ⟨2025, 6, 21⟩ ≤ ph.«end» ∧
        ∀ q ∈ cycles3 (PyDate.mk 2025 6 21).year,
          q.start ≤ toOrdinal ⟨2025, 6, 21⟩ → toOrdinal ⟨2025, 6, 21⟩ ≤ q.«end» →
            q = ph :=
  ⟨by decide, find_phase_total_and_unique ⟨2025, 6, 21⟩ (by decide)⟩

/-- C2: For every integer winter year, the list returned by `build_cycle` is
gapless and non-overlapping — every pair of consecutive phases satisfies
`phase[i+1].start = phase[i].end + 1` — and every phase satisfies
`start ≤ end`. -/
theorem build_cycle_gapless_and_ordered (w : Int) :
    List.Chain' (fun a b => b.start = a.«end» + 1) (build_cycle w) ∧
      ∀ ph ∈ build_cycle w, ph.start ≤ ph.«end» :=
  ⟨build_cycle_chain w, build_cycle_start_le_end w⟩

/-- Witness for C2 at winter year 2024 and its Winter Hard phase. -/
theorem build_cycle_gapless_and_ordered_witness :
    (⟨"Winter Hard", "Winter", "hard", 739220, 739261, none, false⟩ : Phase) ∈
        build_cycle 2024 ∧
      (Phase.mk "Winter Hard" "Winter" "hard" 739220 739261 none false).start ≤
        (Phase.mk "Winter Hard" "Winter" "hard" 739220 739261 none false).«end» :=
  ⟨by decide, (build_cycle_gapless_and_ordered 2024).2 _ (by decide)⟩

/-- C3: For every integer winter year, each Hard phase in the built cycle
spans exactly 42 days, from 21 days before its anchoring solstice (the winter
solstice of the winter year, or the summer solstice of the following year)
through 20 days after it, and each non-variable Transit phase spans exactly
42 days; in particular the Winter Hard phase for winter year 2024 is the
head of that cycle and spans 2024-11-30 through 2025-01-10. -/
theorem hard_and_fixed_phase_lengths :
    (∀ w : Int, ∀ ph ∈ build_cycle w,
      (ph.kind = "hard" → ∃ sol,
        (sol = winter_solstice w ∨ sol = summer_solstice (w + 1)) ∧
        ph.start = sol - 21 ∧ ph.«end» = sol + 20 ∧
        ph.«end» - ph.start + 1 = 42) ∧
      (ph.kind = "transit" → ph.«variable» = false →
        ph.«end» - ph.start + 1 = 42)) ∧
    (build_cycle 2024).head? = some ⟨"Winter Hard", "Winter", "hard",
      toOrdinal ⟨2024, 11, 30⟩, toOrdinal ⟨2025, 1, 10⟩, none, false⟩ := by
  constructor
  · intro w ph hph
    rw [build_cycle_eq] at hph
    simp only [List.mem_cons, List.not_mem_nil, or_false] at hph
    rcases hph with rfl | rfl | rfl | rfl | rfl | rfl | rfl | rfl | rfl | rfl <;>
      refine ⟨fun hk => ?_, fun hk hv => ?_⟩ <;>
      simp only [] at * <;>
      first
        | exact absurd hk (by decide)
        | exact absurd hv (by decide)
        | omega
        | exact ⟨winter_solstice w, Or.inl rfl, by omega, by omega, by omega⟩
        | exact ⟨summer_solstice (w + 1), Or.inr rfl, by omega, by omega, by omega⟩
  · decide

/-- Witness for C3 at winter year 2024 and its Winter Hard phase. -/
theorem hard_and_fixed_phase_lengths_witness :
    (⟨"Winter Hard", "Winter", "hard", 739220, 739261, none, false⟩ : Phase) ∈
        build_cycle 2024 ∧
      (((Phase.mk "Winter Hard" "Winter" "hard" 739220 739261 none false).kind =
          "hard" → ∃ sol,
          (sol = winter_solstice 2024 ∨ sol = summer_solstice (2024 + 1)) ∧
          (Phase.mk "Winter Hard" "Winter" "hard" 739220 739261 none false).start =
            sol - 21 ∧
          (Phase.mk "Winter Hard" "Winter" "hard" 739220 739261 none false).«end» =
            sol + 20 ∧
          (Phase.mk "Winter Hard" "Winter" "hard" 739220 739261 none false).«end» -
            (Phase.mk "Winter Hard" "Winter" "hard" 739220 739261 none false).start +
              1 = 42) ∧
        ((Phase.mk "Winter Hard" "Winter" "hard" 739220 739261 none false).kind =
          "transit" →
          (Phase.mk "Winter Hard" "Winter" "hard" 739220 739261 none false).«variable» =
            false →
          (Phase.mk "Winter Hard" "Winter" "hard" 739220 739261 none false).«end» -
            (Phase.mk "Winter Hard" "Winter" "hard" 739220 739261 none false).start +
              1 = 42)) :=
  ⟨by decide, hard_and_fixed_phase_lengths.1 2024 _ (by decide)⟩


/-- C4: For every integer winter year, the two variable phases in the built
cycle end exactly the day before the next Hard phase's start: Summer
Transit 2 ends 22 days before the following summer solstice and Winter
Transit 2 ("before") ends 22 days before the next winter solstice, so the
following Hard phase (in this cycle, resp. the next winter year's cycle)
starts exactly 21 days before its solstice. -/
theorem variable_phases_absorb_slack :
    ∀ w : Int, ∀ ph ∈ build_cycle w, ph.«variable» = true →
      (ph.name = "Summer Transit 2" ∧ ph.pos = none ∧
        ph.«end» = summer_solstice (w + 1) - 22 ∧
        ∃ nxt ∈ build_cycle w, nxt.kind = "hard" ∧
          nxt.start = ph.«end» + 1 ∧ nxt.start = summer_solstice (w + 1) - 21) ∨
      (ph.name = "Winter Transit 2" ∧ ph.pos = some ("before") ∧
        ph.«end» = winter_solstice (w + 1) - 22 ∧
        ∃ nxt ∈ build_cycle (w + 1), nxt.kind = "hard" ∧
          nxt.start = ph.«end» + 1 ∧ nxt.start = winter_solstice (w + 1) - 21) := by
  intro w ph hph hv
  rw [build_cycle_eq] at hph
  simp only [List.mem_cons, List.not_mem_nil, or_false] at hph
  rcases hph with rfl | rfl | rfl | rfl | rfl | rfl | rfl | rfl | rfl | rfl <;>
    simp only [] at hv ⊢
  case _ => exact absurd hv (by decide)
  case _ => exact absurd hv (by decide)
  case _ => exact absurd hv (by decide)
  case _ => exact absurd hv (by decide)
  case _ =>
    left
    refine ⟨trivial, trivial, trivial, ⟨"Summer Hard", "Summer", "hard",
       summer_solstice (w + 1) - 21, summer_solstice (w + 1) + 20, none, false⟩,
       by rw [build_cycle_eq]; simp, rfl, by simp only []; omega, rfl⟩
  case _ => exact absurd hv (by decide)
  case _ => exact absurd hv (by decide)
  case _ => exact absurd hv (by decide)
  case _ => exact absurd hv (by decide)
  case _ =>
    right
    refine ⟨trivial, trivial, trivial, ⟨"Winter Hard", "Winter", "hard",
       winter_solstice (w + 1) - 21, winter_solstice (w + 1) + 20, none, false⟩,
       by rw [build_cycle_eq]; simp, rfl, by simp only []; omega, rfl⟩

/-- Witness for C4 at winter year 2024 and its Summer Transit 2 phase. -/
theorem variable_phases_absorb_slack_witness :
    (⟨"Summer Transit 2", "Summer", "transit", 739388, 739401, none, true⟩ : Phase) ∈
        build_cycle 2024 ∧
      (Phase.mk "Summer Transit 2" "Summer" "transit" 739388 739401 none true).«variable» =
        true ∧
      (((Phase.mk "Summer Transit 2" "Summer" "transit" 739388 739401 none true).name =
          "Summer Transit 2" ∧
        (Phase.mk "Summer Transit 2" "Summer" "transit" 739388 739401 none true).pos =
          none ∧
        (Phase.mk "Summer Transit 2" "Summer" "transit" 739388 739401 none true).«end» =
          summer_solstice (2024 + 1) - 22 ∧
        ∃ nxt ∈ build_cycle 2024, nxt.kind = "hard" ∧
          nxt.start =
            (Phase.mk "Summer Transit 2" "Summer" "transit" 739388 739401 none true).«end» +
              1 ∧
          nxt.start = summer_solstice (2024 + 1) - 21) ∨
       ((Phase.mk "Summer Transit 2" "Summer" "transit" 739388 739401 none true).name =
          "Winter Transit 2" ∧
        (Phase.mk "Summer Transit 2" "Summer" "transit" 739388 739401 none true).pos =
          some ("before") ∧
        (Phase.mk "Summer Transit 2" "Summer" "transit" 739388 739401 none true).«end» =
          winter_solstice (2024 + 1) - 22 ∧
        ∃ nxt ∈ build_cycle (2024 + 1), nxt.kind = "hard" ∧
          nxt.start =
            (Phase.mk "Summer Transit 2" "Summer" "transit" 739388 739401 none true).«end» +
              1 ∧
          nxt.start = winter_solstice (2024 + 1) - 21)) :=
  ⟨by decide, rfl, variable_phases_absorb_slack 2024 _ (by decide) rfl⟩

/-! ## Claim theorems: degenerate phases and week lookup -/

lemma mem_add_le (n se k : String) (a b : Int) (p : Option String) (v : Bool)
    (l : List Phase) (H : ∀ q ∈ l, q.start ≤ q.«end») :
    ∀ q ∈ add n se k a b p v l, q.start ≤ q.«end» := by
  intro q hq
  unfold add at hq
  by_cases hab : a > b
  · rw [if_pos hab] at hq
    exact H q hq
  · rw [if_neg hab] at hq
    rcases List.mem_append.mp hq with hmem | hmem
    · exact H q hmem
    · have hqe := List.mem_singleton.mp hmem
      subst hqe
      simp only []
      omega

/-- C9: A phase whose computed start is after its computed end is silently
omitted by the `add` helper (the list is returned unchanged, no error is
raised), and consequently, for every winter year and every — possibly
pathological — choice of the `FIXED_DAYS`/`HARD_DAYS` constants, every phase
in the built cycle satisfies `start ≤ end`. -/
theorem degenerate_phases_silently_omitted :
    (∀ (name season kind : String) (start «end» : Int) (pos : Option String)
        («variable» : Bool) (phases : List Phase), start > «end» →
        add name season kind start «end» pos «variable» phases = phases) ∧
    ∀ (fixed_days hard_days w : Int),
      ∀ ph ∈ build_cycle_with fixed_days hard_days w, ph.start ≤ ph.«end» := by
  constructor
  · intro n se k a b p v l hab
    unfold add
    rw [if_pos hab]
  · intro fd hdd w
    simp only [build_cycle_with]
    apply mem_add_le
    apply mem_add_le
    apply mem_add_le
    apply mem_add_le
    apply mem_add_le
    apply mem_add_le
    apply mem_add_le
    apply mem_add_le
    apply mem_add_le
    apply mem_add_le
    intro q hq
    cases hq

/-- Witness for C9: a concrete degenerate `add` call is a no-op. -/
theorem degenerate_phases_silently_omitted_witness :
    (5 : Int) > 3 ∧
      add ("Bogus") ("Winter") ("transit") 5 3 none false [] = [] :=
  ⟨by decide,
    degenerate_phases_silently_omitted.1 ("Bogus") ("Winter") ("transit")
      5 3 none false [] (by decide)⟩

lemma hard_phase_length (w : Int) :
    ∀ ph ∈ build_cycle w, ph.kind = "hard" → ph.«end» = ph.start + 41 := by
  intro ph hph hk
  rw [build_cycle_eq] at hph
  simp only [List.mem_cons, List.not_mem_nil, or_false] at hph
  rcases hph with rfl | rfl | rfl | rfl | rfl | rfl | rfl | rfl | rfl | rfl <;>
    simp only [] at hk ⊢ <;>
    first
      | exact absurd hk (by decide)
      | omega

/-- C10: For every date `d` whose located phase has kind `"hard"`, the day
index `d - phase.start` lies in `0..41`, so `week_idx = day_index // 7` lies
in `0..5` and the `/data` handler's lookup `HARD_WEEK_NAMES[week_idx]` is
always in bounds (it never raises `IndexError`). -/
theorem hard_week_lookup_safe (d : PyDate) (hd : d.valid) (ph : Phase)
    (hfind : find_phase d = some ph) (hk : ph.kind = "hard") :
    0 ≤ toOrdinal d - ph.start ∧ toOrdinal d - ph.start ≤ 41 ∧
      0 ≤ week_idx (toOrdinal d - ph.start) ∧
      week_idx (toOrdinal d - ph.start) ≤ 5 ∧
      ∃ nm, py_index HARD_WEEK_NAMES (week_idx (toOrdinal d - ph.start)) = some nm := by
  unfold find_phase at hfind
  have hcont : ph.start ≤ toOrdinal d ∧ toOrdinal d ≤ ph.«end» := by
    simpa using List.find?_some hfind
  have hmem : ph ∈ cycles3 d.year := List.mem_of_find?_eq_some hfind
  have hlen : ph.«end» = ph.start + 41 := by
    unfold cycles3 at hmem
    rcases List.mem_append.mp hmem with hmem' | hmem'
    · rcases List.mem_append.mp hmem' with hmem'' | hmem''
      · exact hard_phase_length _ ph hmem'' hk
      · exact hard_phase_length _ ph hmem'' hk
    · exact hard_phase_length _ ph hmem' hk
  have h1 : 0 ≤ toOrdinal d - ph.start := by omega
  have h2 : toOrdinal d - ph.start ≤ 41 := by omega
  have hw1 : 0 ≤ week_idx (toOrdinal d - ph.start) := by unfold week_idx WEEK; omega
  have hw2 : week_idx (toOrdinal d - ph.start) ≤ 5 := by unfold week_idx WEEK; omega
  refine ⟨h1, h2, hw1, hw2, ?_⟩
  unfold py_index
  rw [if_pos hw1]
  have hlen6 : HARD_WEEK_NAMES.length = 6 := rfl
  have hlt : (week_idx (toOrdinal d - ph.start)).toNat < HARD_WEEK_NAMES.length := by
    omega
  exact ⟨_, List.get?_eq_get hlt⟩

/-- Witness for C10 at 2025-01-01, which lies in the Winter Hard phase of
winter year 2024. -/
theorem hard_week_lookup_safe_witness :
    (PyDate.mk 2025 1 1).valid ∧
      find_phase ⟨2025, 1, 1⟩ =
        some ⟨"Winter Hard", "Winter", "hard", 739220, 739261, none, false⟩ ∧
      (Phase.mk "Winter Hard" "Winter" "hard" 739220 739261 none false).kind =
        "hard" ∧
      (0 ≤ toOrdinal ⟨2025, 1, 1⟩ -
          (Phase.mk "Winter Hard" "Winter" "hard" 739220 739261 none false).start ∧
        toOrdinal ⟨2025, 1, 1⟩ -
          (Phase.mk "Winter Hard" "Winter" "hard" 739220 739261 none false).start ≤ 41 ∧
        0 ≤ week_idx (toOrdinal ⟨2025, 1, 1⟩ -
          (Phase.mk "Winter Hard" "Winter" "hard" 739220 739261 none false).start) ∧
        week_idx (toOrdinal ⟨2025, 1, 1⟩ -
          (Phase.mk "Winter Hard" "Winter" "hard" 739220 739261 none false).start) ≤ 5 ∧
        ∃ nm, py_index HARD_WEEK_NAMES (week_idx (toOrdinal ⟨2025, 1, 1⟩ -
          (Phase.mk "Winter Hard" "Winter" "hard" 739220 739261 none false).start)) =
            some nm) :=
  ⟨by decide, by decide, rfl,
    hard_week_lookup_safe ⟨2025, 1, 1⟩ (by decide) _ (by decide) rfl⟩

/-! ## Claim theorems: solstice locator -/

lemma max_by_ord_spec (l : List PyDate) (h : l ≠ []) :
    ∃ m, max_by_ord l = some m ∧ m ∈ l ∧ ∀ x ∈ l, toOrdinal x ≤ toOrdinal m := by
  induction l with
  | nil => exact absurd rfl h
  | cons d rest ih =>
    rcases eq_or_ne rest [] with rfl | hne
    · refine ⟨d, by simp [max_by_ord], by simp, ?_⟩
      intro x hx
      have := List.mem_singleton.mp hx
      subst this
      exact le_refl _
    · obtain ⟨m, hm, hmem, hub⟩ := ih hne
      by_cases hcmp : toOrdinal m ≤ toOrdinal d
      · refine ⟨d, by simp [max_by_ord, hm, hcmp], by simp, ?_⟩
        intro x hx
        rcases List.mem_cons.mp hx with rfl | hx'
        · exact le_refl _
        · exact le_trans (hub x hx') hcmp
      · refine ⟨m, by simp [max_by_ord, hm, hcmp], List.mem_cons_of_mem d hmem, ?_⟩
        intro x hx
        rcases List.mem_cons.mp hx with rfl | hx'
        · omega
        · exact hub x hx'

lemma min_by_ord_spec (l : List PyDate) (h : l ≠ []) :
    ∃ m, min_by_ord l = some m ∧ m ∈ l ∧ ∀ x ∈ l, toOrdinal m ≤ toOrdinal x := by
  induction l with
  | nil => exact absurd rfl h
  | cons d rest ih =>
    rcases eq_or_ne rest [] with rfl | hne
    · refine ⟨d, by simp [min_by_ord], by simp, ?_⟩
      intro x hx
      have := List.mem_singleton.mp hx
      subst this
      exact le_refl _
    · obtain ⟨m, hm, hmem, hlb⟩ := ih hne
      by_cases hcmp : toOrdinal d ≤ toOrdinal m
      · refine ⟨d, by simp [min_by_ord, hm, hcmp], by simp, ?_⟩
        intro x hx
        rcases List.mem_cons.mp hx with rfl | hx'
        · exact le_refl _
        · exact le_trans hcmp (hlb x hx')
      · refine ⟨m, by simp [min_by_ord, hm, hcmp], List.mem_cons_of_mem d hmem, ?_⟩
        intro x hx
        rcases List.mem_cons.mp hx with rfl | hx'
        · omega
        · exact hlb x hx'

/-- C5: For every date `d`, `last_next_solstice(d)` succeeds — the `max` over
past candidate solstices and the `min` over future candidates are always
defined — and returns `(last, next)` with `last ≤ d < next` and
`next − last` between 182 and 183 days inclusive. -/
theorem last_next_solstice_round_trip (d : PyDate) (hd : d.valid) :
    ∃ last_sol next_sol, last_next_solstice d = some (last_sol, next_sol) ∧
      toOrdinal last_sol ≤ toOrdinal d ∧ toOrdinal d < toOrdinal next_sol ∧
      182 ≤ toOrdinal next_sol - toOrdinal last_sol ∧
      toOrdinal next_sol - toOrdinal last_sol ≤ 183 := by
  have o1 : toOrdinal (⟨d.year - 1, 6, 21⟩ : PyDate) =
      daysBeforeYear (d.year - 1) + 172 + leapI (d.year - 1) :=
    summer_solstice_eq (d.year - 1)
  have o2 : toOrdinal (⟨d.year - 1, 12, 21⟩ : PyDate) =
      daysBeforeYear (d.year - 1) + 355 + leapI (d.year - 1) :=
    winter_solstice_eq (d.year - 1)
  have o3 : toOrdinal (⟨d.year, 6, 21⟩ : PyDate) =
      daysBeforeYear d.year + 172 + leapI d.year :=
    summer_solstice_eq d.year
  have o4 : toOrdinal (⟨d.year, 12, 21⟩ : PyDate) =
      daysBeforeYear d.year + 355 + leapI d.year :=
    winter_solstice_eq d.year
  have o5 : toOrdinal (⟨d.year + 1, 6, 21⟩ : PyDate) =
      daysBeforeYear (d.year + 1) + 172 + leapI (d.year + 1) :=
    summer_solstice_eq (d.year + 1)
  have o6 : toOrdinal (⟨d.year + 1, 12, 21⟩ : PyDate) =
      daysBeforeYear (d.year + 1) + 355 + leapI (d.year + 1) :=
    winter_solstice_eq (d.year + 1)
  have e1 : daysBeforeYear d.year =
      daysBeforeYear (d.year - 1) + 365 + leapI (d.year - 1) := by
    have h := daysBeforeYear_succ (d.year - 1)
    rw [show d.year - 1 + 1 = d.year from by ring] at h
    exact h
  have e2 := daysBeforeYear_succ d.year
  have hb1 := leapI_bounds (d.year - 1)
  have hb2 := leapI_bounds d.year
  have hb3 := leapI_bounds (d.year + 1)
  have hbd := toOrdinal_bounds d hd
  have hc1 : toOrdinal (⟨d.year - 1, 6, 21⟩ : PyDate) ≤ toOrdinal d := by omega
  have hc2 : toOrdinal (⟨d.year - 1, 12, 21⟩ : PyDate) ≤ toOrdinal d := by omega
  have hc5 : toOrdinal d < toOrdinal (⟨d.year + 1, 6, 21⟩ : PyDate) := by omega
  have hc6 : toOrdinal d < toOrdinal (⟨d.year + 1, 12, 21⟩ : PyDate) := by omega
  have hm1 : (⟨d.year - 1, 6, 21⟩ : PyDate) ∈
      (solstice_candidates d).filter
        (fun s => decide (toOrdinal s ≤ toOrdinal d)) :=
    List.mem_filter.mpr ⟨by simp [solstice_candidates], by simp [hc1]⟩
  have hm5 : (⟨d.year + 1, 6, 21⟩ : PyDate) ∈
      (solstice_candidates d).filter
        (fun s => decide (toOrdinal d < toOrdinal s)) :=
    List.mem_filter.mpr ⟨by simp [solstice_candidates], by simp [hc5]⟩
  obtain ⟨m, hmax, hmemm, hub⟩ := max_by_ord_spec
    ((solstice_candidates d).filter (fun s => decide (toOrdinal s ≤ toOrdinal d)))
    (List.ne_nil_of_mem hm1)
  obtain ⟨n, hmin, hmemn, hlb⟩ := min_by_ord_spec
    ((solstice_candidates d).filter (fun s => decide (toOrdinal d < toOrdinal s)))
    (List.ne_nil_of_mem hm5)
  have hm_le : toOrdinal m ≤ toOrdinal d := by
    have := (List.mem_filter.mp hmemm).2
    simpa using this
  have hn_gt : toOrdinal d < toOrdinal n := by
    have := (List.mem_filter.mp hmemn).2
    simpa using this
  have hm_cand : m ∈ solstice_candidates d := (List.mem_filter.mp hmemm).1
  have hn_cand : n ∈ solstice_candidates d := (List.mem_filter.mp hmemn).1
  have hub2 : toOrdinal (⟨d.year - 1, 12, 21⟩ : PyDate) ≤ toOrdinal m :=
    hub _ (List.mem_filter.mpr ⟨by simp [solstice_candidates], by simp [hc2]⟩)
  have hlb5 : toOrdinal n ≤ toOrdinal (⟨d.year + 1, 6, 21⟩ : PyDate) :=
    hlb _ hm5
  have f3 : (toOrdinal (⟨d.year, 6, 21⟩ : PyDate) ≤ toOrdinal d ∧
      toOrdinal (⟨d.year, 6, 21⟩ : PyDate) ≤ toOrdinal m) ∨
      (toOrdinal d < toOrdinal (⟨d.year, 6, 21⟩ : PyDate) ∧
        toOrdinal n ≤ toOrdinal (⟨d.year, 6, 21⟩ : PyDate)) := by
    rcases le_or_lt (toOrdinal (⟨d.year, 6, 21⟩ : PyDate)) (toOrdinal d) with hc | hc
    · exact Or.inl ⟨hc, hub _ (List.mem_filter.mpr
        ⟨by simp [solstice_candidates], by simp [hc]⟩)⟩
    · exact Or.inr ⟨hc, hlb _ (List.mem_filter.mpr
        ⟨by simp [solstice_candidates], by simp [hc]⟩)⟩
  have f4 : (toOrdinal (⟨d.year, 12, 21⟩ : PyDate) ≤ toOrdinal d ∧
      toOrdinal (⟨d.year, 12, 21⟩ : PyDate) ≤ toOrdinal m) ∨
      (toOrdinal d < toOrdinal (⟨d.year, 12, 21⟩ : PyDate) ∧
        toOrdinal n ≤ toOrdinal (⟨d.year, 12, 21⟩ : PyDate)) := by
    rcases le_or_lt (toOrdinal (⟨d.year, 12, 21⟩ : PyDate)) (toOrdinal d) with hc | hc
    · exact Or.inl ⟨hc, hub _ (List.mem_filter.mpr
        ⟨by simp [solstice_candidates], by simp [hc]⟩)⟩
    · exact Or.inr ⟨hc, hlb _ (List.mem_filter.mpr
        ⟨by simp [solstice_candidates], by simp [hc]⟩)⟩
  have hmd : m = (⟨d.year - 1, 6, 21⟩ : PyDate) ∨ m = ⟨d.year - 1, 12, 21⟩ ∨
      m = ⟨d.year, 6, 21⟩ ∨ m = ⟨d.year, 12, 21⟩ ∨ m = ⟨d.year + 1, 6, 21⟩ ∨
      m = ⟨d.year + 1, 12, 21⟩ := by
    simpa [solstice_candidates] using hm_cand
  have hnd : n = (⟨d.year - 1, 6, 21⟩ : PyDate) ∨ n = ⟨d.year - 1, 12, 21⟩ ∨
      n = ⟨d.year, 6, 21⟩ ∨ n = ⟨d.year, 12, 21⟩ ∨ n = ⟨d.year + 1, 6, 21⟩ ∨
      n = ⟨d.year + 1, 12, 21⟩ := by
    simpa [solstice_candidates] using hn_cand
  have hdiff : 182 ≤ toOrdinal n - toOrdinal m ∧
      toOrdinal n - toOrdinal m ≤ 183 := by
    rcases hmd with rfl | rfl | rfl | rfl | rfl | rfl <;>
      rcases hnd with rfl | rfl | rfl | rfl | rfl | rfl <;> omega
  have heq : last_next_solstice d = some (m, n) := by
    simp only [last_next_solstice]
    rw [hmax, hmin]
  exact ⟨m, n, heq, hm_le, hn_gt, hdiff.1, hdiff.2⟩

/-- Witness for C5 at the concrete date 2025-03-15. -/
theorem last_next_solstice_round_trip_witness :
    (PyDate.mk 2025 3 15).valid ∧
      ∃ last_sol next_sol, last_next_solstice ⟨2025, 3, 15⟩ =
          some (last_sol, next_sol) ∧
        toOrdinal last_sol ≤ toOrdinal ⟨2025, 3, 15⟩ ∧
        toOrdinal ⟨2025, 3, 15⟩ < toOrdinal next_sol ∧
        182 ≤ toOrdinal next_sol - toOrdinal last_sol ∧
        toOrdinal next_sol - toOrdinal last_sol ≤ 183 :=
  ⟨by decide, last_next_solstice_round_trip ⟨2025, 3, 15⟩ (by decide)⟩

/-- C6: `solstice_name` returns `"Summer"` exactly when the month is June and
`"Winter"` for any other month; for `today = 2025-06-21` (the summer solstice
itself), the last solstice returned by `last_next_solstice` is 2025-06-21,
its name is `"Summer"`, and the days-since-last counter is 0. -/
theorem solstice_name_spec :
    (∀ d : PyDate, (solstice_name d = "Summer" ↔ d.month = 6) ∧
      (solstice_name d = "Winter" ↔ d.month ≠ 6)) ∧
    ∃ last_sol next_sol, last_next_solstice ⟨2025, 6, 21⟩ =
        some (last_sol, next_sol) ∧
      last_sol = ⟨2025, 6, 21⟩ ∧ solstice_name last_sol = "Summer" ∧
      toOrdinal ⟨2025, 6, 21⟩ - toOrdinal last_sol = 0 := by
  constructor
  · intro d
    unfold solstice_name
    by_cases hm : d.month = 6
    · rw [if_pos hm]
      constructor <;> simp [hm]
    · rw [if_neg hm]
      constructor <;> simp [hm]
  · exact ⟨⟨2025, 6, 21⟩, ⟨2025, 12, 21⟩, by decide, rfl, by decide, by decide⟩

/-! ## Claim theorems: solar ephemeris -/

/-- C7: The display declination is `23.44 · sin((360/365) · (dayOfYear − 81)
degrees)`, the reported altitude is `round(90 − latitude + declination, 1)`,
and at day-of-year 81 the display declination is exactly 0 (sine of zero). -/
theorem display_declination_and_altitude :
    (∀ doy : Int, solar_declination doy =
      23.44 * Real.sin ((360 / 365) * ((doy : ℝ) - 81) * Real.pi / 180)) ∧
    (∀ lat dec : ℝ, sun_altitude lat dec = py_round1 (90 - lat + dec)) ∧
    solar_declination 81 = 0 := by
  refine ⟨fun doy => rfl, fun lat dec => rfl, ?_⟩
  unfold solar_declination radians
  norm_num

lemma declination_radians_bounds (doy : Int) :
    -0.489 ≤ declination_radians doy ∧ declination_radians doy ≤ 0.489 := by
  unfold declination_radians
  have h1 := Real.neg_one_le_cos (frac_year_gamma doy)
  have h2 := Real.cos_le_one (frac_year_gamma doy)
  have h3 := Real.neg_one_le_sin (frac_year_gamma doy)
  have h4 := Real.sin_le_one (frac_year_gamma doy)
  have h5 := Real.neg_one_le_cos (2 * frac_year_gamma doy)
  have h6 := Real.cos_le_one (2 * frac_year_gamma doy)
  have h7 := Real.neg_one_le_sin (2 * frac_year_gamma doy)
  have h8 := Real.sin_le_one (2 * frac_year_gamma doy)
  have h9 := Real.neg_one_le_cos (3 * frac_year_gamma doy)
  have h10 := Real.cos_le_one (3 * frac_year_gamma doy)
  have h11 := Real.neg_one_le_sin (3 * frac_year_gamma doy)
  have h12 := Real.sin_le_one (3 * frac_year_gamma doy)
  constructor <;> linarith

lemma cos_zenith_bounds : Real.cos zenith < 0 ∧ -0.0146 ≤ Real.cos zenith := by
  have hπu : Real.pi < 3.141593 := Real.pi_lt_d6
  have hπl : (3.141592 : ℝ) < Real.pi := Real.pi_gt_d6
  have hz : Real.cos zenith = -Real.sin (0.833 * Real.pi / 180) := by
    unfold zenith radians
    rw [show (90.833 : ℝ) * Real.pi / 180 = Real.pi / 2 + 0.833 * Real.pi / 180
      from by ring]
    rw [Real.cos_add, Real.cos_pi_div_two, Real.sin_pi_div_two]
    ring
  have hw0 : 0 < 0.833 * Real.pi / 180 := by nlinarith
  have hwπ : 0.833 * Real.pi / 180 < Real.pi := by nlinarith
  have hp := Real.sin_pos_of_pos_of_lt_pi hw0 hwπ
  have hlt := Real.sin_lt hw0
  constructor
  · rw [hz]; linarith
  · rw [hz]; nlinarith

set_option maxHeartbeats 1000000 in
lemma cos_hour_angle_aux (l δ cz : ℝ) (hl0 : 0 ≤ l) (hlu : l ≤ 0.7996)
    (hδ1 : -0.489 ≤ δ) (hδ2 : δ ≤ 0.489) (hz1 : cz < 0) (hz2 : -0.0146 ≤ cz) :
    -1 < (cz - Real.sin l * Real.sin δ) / (Real.cos l * Real.cos δ) ∧
      (cz - Real.sin l * Real.sin δ) / (Real.cos l * Real.cos δ) < 1 := by
  have hx1 : (0 : ℝ) ≤ 1.2886 - (l - δ) := by linarith
  have hx2 : (0 : ℝ) ≤ 1.2886 + (l - δ) := by linarith
  have hsq1 : (l - δ) ^ 2 ≤ 1.2886 ^ 2 := by nlinarith [mul_nonneg hx1 hx2]
  have hy1 : (0 : ℝ) ≤ 1.2886 - (l + δ) := by linarith
  have hy2 : (0 : ℝ) ≤ 1.2886 + (l + δ) := by linarith
  have hsq2 : (l + δ) ^ 2 ≤ 1.2886 ^ 2 := by nlinarith [mul_nonneg hy1 hy2]
  have hld1 : 1 - (l - δ) ^ 2 / 2 ≤ Real.cos (l - δ) :=
    Real.one_sub_sq_div_two_le_cos
  have hld2 : 1 - (l + δ) ^ 2 / 2 ≤ Real.cos (l + δ) :=
    Real.one_sub_sq_div_two_le_cos
  have hcld : (0.16 : ℝ) ≤ Real.cos (l - δ) := by nlinarith
  have hclda : (0.16 : ℝ) ≤ Real.cos (l + δ) := by nlinarith
  have hsql : l ^ 2 ≤ 0.7996 ^ 2 := by nlinarith
  have hsqδ : δ ^ 2 ≤ 0.489 ^ 2 := by nlinarith
  have hcl : (0 : ℝ) < Real.cos l := by
    have h : 1 - l ^ 2 / 2 ≤ Real.cos l := Real.one_sub_sq_div_two_le_cos
    nlinarith
  have hcδ : (0 : ℝ) < Real.cos δ := by
    have h : 1 - δ ^ 2 / 2 ≤ Real.cos δ := Real.one_sub_sq_div_two_le_cos
    nlinarith
  have hden : (0 : ℝ) < Real.cos l * Real.cos δ := mul_pos hcl hcδ
  have hsub : Real.cos (l - δ) = Real.cos l * Real.cos δ + Real.sin l * Real.sin δ :=
    Real.cos_sub l δ
  have hadd : Real.cos (l + δ) = Real.cos l * Real.cos δ - Real.sin l * Real.sin δ :=
    Real.cos_add l δ
  constructor
  · rw [lt_div_iff₀ hden]
    linarith
  · rw [div_lt_one hden]
    linarith

lemma cos_hour_angle_bounds (doy : Int) :
    -1 < cos_hour_angle doy LATITUDE ∧ cos_hour_angle doy LATITUDE < 1 := by
  have hδ := declination_radians_bounds doy
  have hπu : Real.pi < 3.141593 := Real.pi_lt_d6
  have hπl : (3.141592 : ℝ) < Real.pi := Real.pi_gt_d6
  have hz := cos_zenith_bounds
  have hl0 : 0 ≤ radians LATITUDE := by
    unfold radians LATITUDE
    positivity
  have hlu : radians LATITUDE ≤ 0.7996 := by
    unfold radians LATITUDE
    nlinarith
  unfold cos_hour_angle
  exact cos_hour_angle_aux (radians LATITUDE) (declination_radians doy)
    (Real.cos zenith) hl0 hlu hδ.1 hδ.2 hz.1 hz.2

/-- C8: For every date (any day-of-year) at the fixed latitude 45.81°N, the
pre-clamp hour-angle cosine lies strictly inside `(-1, 1)` (no clamp to polar
day or night occurs), the hour-angle term is strictly positive, and the
computed sunrise minute is strictly earlier than the computed sunset minute
in `sunrise_sunset_local`. -/
theorem sunrise_lt_sunset (d : PyDate) (lon tz_hours : ℝ) :
    -1 < cos_hour_angle (day_of_year d) LATITUDE ∧
      cos_hour_angle (day_of_year d) LATITUDE < 1 ∧
      0 < ha_deg (day_of_year d) LATITUDE ∧
      (sunrise_sunset_local (day_of_year d) LATITUDE lon tz_hours).1 <
        (sunrise_sunset_local (day_of_year d) LATITUDE lon tz_hours).2 := by
  obtain ⟨h1, h2⟩ := cos_hour_angle_bounds (day_of_year d)
  have hha : 0 < ha_deg (day_of_year d) LATITUDE := by
    unfold ha_deg
    rw [min_eq_right h2.le, max_eq_right h1.le]
    have harc : 0 < Real.arccos (cos_hour_angle (day_of_year d) LATITUDE) :=
      Real.arccos_pos.mpr h2
    have hπ := Real.pi_pos
    positivity
  refine ⟨h1, h2, hha, ?_⟩
  unfold sunrise_sunset_local
  simp only []
  linarith

end SolYear
